import Mathlib

/-!
# Verification of the scatter-py real-time client core

A shallow embedding of the scatter-py client library (src/scatter/client.py,
src/scatter/http.py, src/scatter/models.py) together with proofs of the
behavioural properties stated in the specification.

Python values flowing through the payload parsers are modelled by the
inductive `Json` type. Fallible Python code (raising KeyError, TypeError,
ValueError, AttributeError) is modelled with `Except PyErr`. The standard
library function `datetime.fromisoformat` is external to the repository and
is modelled as an oracle parameter `iso : String → Option String`.
-/

namespace Scatter

/-- A Python/JSON value as it appears in event payloads and REST bodies. -/
inductive Json where
  | null : Json
  | str (s : String) : Json
  | num (n : Int) : Json
  | bool (b : Bool) : Json
  | dict (fields : List (String × Json)) : Json
  | list (items : List Json) : Json

/-- Python exceptions that the parsing and registration code can raise. -/
inductive PyErr where
  | keyError (k : String) : PyErr
  | typeError : PyErr
  | valueError : PyErr
  | attributeError : PyErr
  deriving DecidableEq

/-- First-match lookup in a Python dict (keys in source dicts are unique). -/
def lookupField : List (String × Json) → String → Option Json
  | [], _ => none
  | (k, v) :: rest, key => if k = key then some v else lookupField rest key

/-- Python subscripting `d[k]` with a string key: KeyError on a dict missing
the key, TypeError on any non-dict value. -/
def subscript : Json → String → Except PyErr Json
  | Json.dict fields, k =>
      match lookupField fields k with
      | some v => Except.ok v
      | none => Except.error (PyErr.keyError k)
  | _, _ => Except.error PyErr.typeError

/-- Python `d.get(k, default)`: AttributeError when `d` is not a dict.
A stored JSON null and an absent key both surface as Python None, which the
callers treat through the supplied default. -/
def dictGetD : Json → String → Json → Except PyErr Json
  | Json.dict fields, k, dflt => Except.ok ((lookupField fields k).getD dflt)
  | _, _, _ => Except.error PyErr.attributeError

/-- Python truthiness test `not x` used by `_parse_dt`. -/
def falsy : Json → Bool
  | Json.null => true
  | Json.str s => s = ""
  | Json.num n => n = 0
  | Json.bool b => !b
  | Json.dict fields => fields.isEmpty
  | Json.list items => items.isEmpty

/-- Python iteration `for x in v`: lists yield items, dicts yield their keys,
strings yield one-character strings, everything else raises TypeError. -/
def pyIter : Json → Except PyErr (List Json)
  | Json.list items => Except.ok items
  | Json.dict fields => Except.ok (fields.map (fun kv => Json.str kv.1))
  | Json.str s => Except.ok (s.toList.map (fun c => Json.str (String.mk [c])))
  | _ => Except.error PyErr.typeError

/-- The `"Z" -> "+00:00"` normalisation performed by `_parse_dt`. -/
def replaceZ (s : String) : String := s.replace "Z" "+00:00"

/-- `_parse_dt` from models.py: falsy input gives None; a string is
normalised and handed to `datetime.fromisoformat` (the oracle `iso`,
ValueError when it rejects); any other truthy value lacks `.replace` and
raises AttributeError. -/
def parseDt (iso : String → Option String) (j : Json) : Except PyErr (Option String) :=
  if falsy j then Except.ok none
  else match j with
    | Json.str s =>
        match iso (replaceZ s) with
        | some dt => Except.ok (some dt)
        | none => Except.error PyErr.valueError
    | _ => Except.error PyErr.attributeError

/-! ## models.py: domain objects and their from_dict constructors

Fields carry raw `Json` values exactly as the Python dataclasses store
whatever value the payload supplied, without validation. -/

structure User where
  id : Json
  username : Json
  display_name : Json
  avatar_url : Json
  presence : Json
  custom_status : Json
  subscription_tier : Json
  is_admin : Json

/-- `User.from_dict` from models.py, field initialisers in source order. -/
def User.from_dict (d : Json) : Except PyErr User := do
  let id ← subscript d "id"
  let username ← dictGetD d "username" (Json.str "")
  let display_name ← dictGetD d "display_name" (Json.str "")
  let avatar_url ← dictGetD d "avatar_url" Json.null
  let presence ← dictGetD d "presence" (Json.str "offline")
  let custom_status ← dictGetD d "custom_status" Json.null
  let subscription_tier ← dictGetD d "subscription_tier" (Json.str "free")
  let is_admin ← dictGetD d "is_admin" (Json.bool false)
  pure ⟨id, username, display_name, avatar_url, presence, custom_status,
        subscription_tier, is_admin⟩

structure Embed where
  id : Json
  url : Json
  embed_type : Json
  title : Json
  description : Json
  thumbnail_url : Json
  site_name : Json
  color : Json
  image_url : Json
  video_url : Json
  provider_name : Json

/-- `Embed.from_dict` from models.py: every field uses `.get` with a
default, so any dict parses. -/
def Embed.from_dict (d : Json) : Except PyErr Embed := do
  let id ← dictGetD d "id" (Json.str "")
  let url ← dictGetD d "url" (Json.str "")
  let embed_type ← dictGetD d "embed_type" (Json.str "link")
  let title ← dictGetD d "title" Json.null
  let description ← dictGetD d "description" Json.null
  let thumbnail_url ← dictGetD d "thumbnail_url" Json.null
  let site_name ← dictGetD d "site_name" Json.null
  let color ← dictGetD d "color" Json.null
  let image_url ← dictGetD d "image_url" Json.null
  let video_url ← dictGetD d "video_url" Json.null
  let provider_name ← dictGetD d "provider_name" Json.null
  pure ⟨id, url, embed_type, title, description, thumbnail_url, site_name,
        color, image_url, video_url, provider_name⟩

structure Attachment where
  id : Json
  filename : Json
  original_filename : Json
  content_type : Json
  size_bytes : Json
  url : Json
  width : Json
  height : Json

/-- `Attachment.from_dict` from models.py: `id`, `filename`, `url` are
subscripted (required); the default for `original_filename` is the
required `filename` value, evaluated eagerly as a Python call argument. -/
def Attachment.from_dict (d : Json) : Except PyErr Attachment := do
  let id ← subscript d "id"
  let filename ← subscript d "filename"
  let origDefault ← subscript d "filename"
  let original_filename ← dictGetD d "original_filename" origDefault
  let content_type ← dictGetD d "content_type" (Json.str "")
  let size_bytes ← dictGetD d "size_bytes" (Json.num 0)
  let url ← subscript d "url"
  let width ← dictGetD d "width" Json.null
  let height ← dictGetD d "height" Json.null
  pure ⟨id, filename, original_filename, content_type, size_bytes, url,
        width, height⟩

structure Reaction where
  emoji : Json
  count : Json
  user_reacted : Json

/-- `Reaction.from_dict` from models.py: `emoji` and `count` are
subscripted (required), `user_reacted` defaults to False. -/
def Reaction.from_dict (d : Json) : Except PyErr Reaction := do
  let emoji ← subscript d "emoji"
  let count ← subscript d "count"
  let user_reacted ← dictGetD d "user_reacted" (Json.bool false)
  pure ⟨emoji, count, user_reacted⟩

structure Message where
  id : Json
  channel_id : Json
  content : Json
  author : User
  space_id : Option String
  created_at : Option String
  edited_at : Option String
  reply_to : Json
  ping_author : Json
  embeds : List Embed
  attachments : List Attachment
  reactions : List Reaction

/-- `Message.from_dict` from models.py, steps in source evaluation order:
`author_data = d.get("author", {})` first, then the keyword arguments of
the dataclass call left to right. -/
def Message.from_dict (iso : String → Option String) (d : Json)
    (space_id : Option String) : Except PyErr Message := do
  let author_data ← dictGetD d "author" (Json.dict [])
  let id ← subscript d "id"
  let channel_id ← dictGetD d "channel_id" (Json.str "")
  let content ← dictGetD d "content" (Json.str "")
  let author ← User.from_dict author_data
  let created_raw ← dictGetD d "created_at" Json.null
  let created_at ← parseDt iso created_raw
  let edited_raw ← dictGetD d "edited_at" Json.null
  let edited_at ← parseDt iso edited_raw
  let reply_to ← dictGetD d "reply_to" Json.null
  let ping_author ← dictGetD d "ping_author" (Json.bool false)
  let embedsRaw ← dictGetD d "embeds" (Json.list [])
  let embedItems ← pyIter embedsRaw
  let embeds ← embedItems.mapM Embed.from_dict
  let attachmentsRaw ← dictGetD d "attachments" (Json.list [])
  let attachmentItems ← pyIter attachmentsRaw
  let attachments ← attachmentItems.mapM Attachment.from_dict
  let reactionsRaw ← dictGetD d "reactions" (Json.list [])
  let reactionItems ← pyIter reactionsRaw
  let reactions ← reactionItems.mapM Reaction.from_dict
  pure ⟨id, channel_id, content, author, space_id, created_at, edited_at,
        reply_to, ping_author, embeds, attachments, reactions⟩

/-! ## http.py: HTTPClient.request status handling

The aiohttp response is modelled by its observable pair of status code and
parsed JSON body. Python `str(body)` used when wrapping a non-dict error
body is external formatting and is modelled by the oracle `strOf`. -/

structure Response where
  status : Nat
  body : Json

/-- The exception classes of errors.py as raised by http.py, each carrying
the status code and a body dict. -/
inductive HTTPError where
  | notFound (status : Nat) (body : Json) : HTTPError
  | forbidden (status : Nat) (body : Json) : HTTPError
  | httpException (status : Nat) (body : Json) : HTTPError

/-- `body if isinstance(body, dict) else error-wrapping` from http.py. -/
def normalizeBody (strOf : Json → String) : Json → Json
  | Json.dict fields => Json.dict fields
  | b => Json.dict [("error", Json.str (strOf b))]

/-- The response-handling tail of `HTTPClient.request` from http.py:
status 204 short-circuits to an empty dict before the body is read; then
404, 403 and the remaining statuses of 400 and above map to the three
exception classes; any other status returns the parsed body. The function
consumes exactly one response and never retries. -/
def request (strOf : Json → String) (resp : Response) : Except HTTPError Json :=
  if resp.status = 204 then Except.ok (Json.dict [])
  else if resp.status ≥ 400 then
    if resp.status = 404 then
      Except.error (HTTPError.notFound resp.status (normalizeBody strOf resp.body))
    else if resp.status = 403 then
      Except.error (HTTPError.forbidden resp.status (normalizeBody strOf resp.body))
    else
      Except.error (HTTPError.httpException resp.status (normalizeBody strOf resp.body))
  else Except.ok resp.body

/-- One `request` call against a queue of responses the transport would
serve: exactly the head response is consumed, the tail is untouched. -/
def requestOnQueue (strOf : Json → String) :
    List Response → Option (Except HTTPError Json × List Response)
  | [] => none
  | r :: rest => some (request strOf r, rest)

/-! ## client.py: handler registration and event dispatch

A user callback is modelled by an identifier plus the observable fact of
whether invoking it on a given parsed payload raises. The dispatch cycle
is turned into an explicit trace of `Action`s so that ordering and
isolation properties can be stated. `EVENT_MAP` and `parse_event` live in
events.py, which only client.py imports here; dispatch takes them as
parameters, as client.py treats them opaquely. -/

structure Handler where
  hid : Nat
  raises : Json → Bool

/-- Generic association-list lookup for the registration dicts. -/
def lookupAssoc {α : Type} : List (String × α) → String → Option α
  | [], _ => none
  | (k, v) :: rest, key => if k = key then some v else lookupAssoc rest key

/-- Python dict assignment `d[k] = v`: replace in place, else append. -/
def updateAssoc {α : Type} : List (String × α) → String → α → List (String × α)
  | [], k, v => [(k, v)]
  | (k', v') :: rest, k, v =>
      if k' = k then (k, v) :: rest else (k', v') :: updateAssoc rest k v

/-- The registration and session state of `Client` relevant to dispatch. -/
structure ClientState where
  user_id : Json
  event_handlers : List (String × Handler)
  listeners : List (String × List Handler)

/-- The observable steps of one `Client._dispatch` cycle. Invocation
actions record the payload handed to the callback, the `user_id` the
client exposes at the moment of the call, and whether the callback
raised (a raised exception is caught and logged, never propagated). -/
inductive Action where
  | logDebugUnhandled (event_type : String) : Action
  | setUserId (v : Json) : Action
  | parsePayload (event_type : String) : Action
  | invokePrimary (hid : Nat) (payload : Json) (observed_user_id : Json)
      (raised : Bool) : Action
  | logHandlerError (handler_name : String) : Action
  | invokeListener (hid : Nat) (payload : Json) (observed_user_id : Json)
      (raised : Bool) : Action
  | logListenerError (handler_name : String) : Action

/-- The actions of the primary-handler step of `_dispatch`: the
try/except around `await handler(parsed)`. -/
def primaryActions (handler_name : String) (parsed user_id : Json) :
    Option Handler → List Action
  | none => []
  | some h =>
      if h.raises parsed then
        [Action.invokePrimary h.hid parsed user_id true,
         Action.logHandlerError handler_name]
      else
        [Action.invokePrimary h.hid parsed user_id false]

/-- The actions of one listener invocation inside the listener loop of
`_dispatch`: the try/except around `await listener(parsed)`. -/
def listenerActions (handler_name : String) (parsed user_id : Json)
    (h : Handler) : List Action :=
  if h.raises parsed then
    [Action.invokeListener h.hid parsed user_id true,
     Action.logListenerError handler_name]
  else
    [Action.invokeListener h.hid parsed user_id false]

/-- `Client._dispatch` from client.py as a state transformer with an
action trace: unknown raw kinds log at debug level and return; the ready
event updates `user_id` from the raw data before anything else; the
payload is parsed once; the primary handler (if registered) runs inside
try/except; then every listener runs inside its own try/except. -/
def dispatch (EVENT_MAP : String → Option String)
    (parse_event : String → List (String × Json) → Json)
    (st : ClientState) (event_type : String) (data : List (String × Json)) :
    ClientState × List Action :=
  match EVENT_MAP event_type with
  | none => (st, [Action.logDebugUnhandled event_type])
  | some mapped =>
    let handler_name := "on_" ++ mapped
    let st1 :=
      if mapped = "ready" then
        { st with user_id := (lookupField data "user_id").getD Json.null }
      else st
    let readyActs :=
      if mapped = "ready" then [Action.setUserId st1.user_id] else []
    let parsed := parse_event event_type data
    let primAct := primaryActions handler_name parsed st1.user_id
      (lookupAssoc st1.event_handlers handler_name)
    let ls := (lookupAssoc st1.listeners handler_name).getD []
    let listAct := ls.flatMap (listenerActions handler_name parsed st1.user_id)
    (st1, readyActs ++ Action.parsePayload event_type :: primAct ++ listAct)

/-- Python `str.startswith`, computed on the character list. -/
def pyStartsWith (pre s : String) : Bool := pre.toList.isPrefixOf s.toList

/-- `Client.event` from client.py: reject names not starting with `on_`
with ValueError, otherwise store the callback as the unique primary
handler under its own name and hand the callback back unchanged. -/
def Client.event (st : ClientState) (name : String) (h : Handler) :
    Except PyErr (ClientState × Handler) :=
  if ¬ pyStartsWith "on_" name then Except.error PyErr.valueError
  else
    Except.ok
      ({ st with event_handlers := updateAssoc st.event_handlers name h }, h)

/-- `Client.listen` from client.py: append the callback to the listener
list for the chosen key (`event_name or coro.__name__`), creating the
list on first use, and hand the callback back. -/
def Client.listen (st : ClientState) (event_name : Option String)
    (coro_name : String) (h : Handler) : ClientState × Handler :=
  let key := event_name.getD coro_name
  ({ st with
      listeners :=
        updateAssoc st.listeners key
          (((lookupAssoc st.listeners key).getD []) ++ [h]) }, h)

/-! ## client.py: the Typing async context manager

The asyncio execution of `Typing` is embedded as a deterministic
discrete-time schedule. Times are in seconds. The scope body runs for `T`
seconds; `__aenter__` at time 0 sends one typing signal and starts the
loop task before the body begins; the loop task wakes from
`asyncio.sleep(_TYPING_INTERVAL)` at each positive multiple of the
interval and re-sends while the scope is open; `__aexit__` at time `T`
(reached on normal completion or on an exception raised by the body)
cancels the task and awaits it (the loop absorbs the CancelledError and
stops) before control returns. -/

/-- `_TYPING_INTERVAL` from client.py (4.0 seconds). -/
def TYPING_INTERVAL : Nat := 4

/-- Time-stamped observable events of one typing scope. -/
inductive TypingEvent where
  | sendTyping (t : Nat) : TypingEvent
  | bodyStart (t : Nat) : TypingEvent
  | bodyEnd (t : Nat) (raised : Bool) : TypingEvent
  | cancelTask (t : Nat) : TypingEvent
  | taskStopped (t : Nat) : TypingEvent
  | scopeExit (t : Nat) : TypingEvent

/-- The typing signals emitted by `Typing._loop` while the body runs:
one at each positive multiple of the interval strictly before the exit
time (the cancellation at time `T` interrupts the pending sleep). -/
def typingLoopSends (T : Nat) : List TypingEvent :=
  (List.range T).filterMap (fun t =>
    if t % TYPING_INTERVAL = 0 ∧ t ≠ 0 then some (TypingEvent.sendTyping t)
    else none)

/-- The full event schedule of `async with client.typing(ch)` whose body
runs `T` seconds and finishes normally (`raised = false`) or by raising
(`raised = true`); `__aexit__` takes the same path either way. -/
def typingRun (T : Nat) (raised : Bool) : List TypingEvent :=
  TypingEvent.sendTyping 0 :: TypingEvent.bodyStart 0 ::
    typingLoopSends T ++
      [TypingEvent.bodyEnd T raised, TypingEvent.cancelTask T,
       TypingEvent.taskStopped T, TypingEvent.scopeExit T]

/-! ## The Gateway subscription tracker and facade operations

gateway.py is imported by client.py but is not among the provided source
files; its tracker and send primitives are modelled from the spec, while
the five facade operations below are translated from client.py itself. -/

/-- Modelled from the spec: the Gateway state visible to the facade
(gateway.py is not under src/). The Subscription Tracker of spec section
4.2 holds two sets of opaque string identifiers mutated only by idempotent
track/untrack operations; `outbox` records the messages handed to the
gateway `send` primitive in order. -/
structure Gateway where
  channels : List String
  spaces : List String
  outbox : List Json

/-- Modelled from the spec: `trackChannel(id)` of spec section 4.2 —
synchronous idempotent set insertion (gateway.py is not under src/). -/
def track_channel (g : Gateway) (id : String) : Gateway :=
  if id ∈ g.channels then g else { g with channels := g.channels ++ [id] }

/-- Modelled from the spec: `untrackChannel(id)` of spec section 4.2
(gateway.py is not under src/). -/
def untrack_channel (g : Gateway) (id : String) : Gateway :=
  { g with channels := g.channels.filter (fun c => c ≠ id) }

/-- Modelled from the spec: `trackSpace(id)` of spec section 4.2
(gateway.py is not under src/). -/
def track_space (g : Gateway) (id : String) : Gateway :=
  if id ∈ g.spaces then g else { g with spaces := g.spaces ++ [id] }

/-- Modelled from the spec: `untrackSpace(id)` of spec section 4.2
(gateway.py is not under src/). -/
def untrack_space (g : Gateway) (id : String) : Gateway :=
  { g with spaces := g.spaces.filter (fun s => s ≠ id) }

/-- Modelled from the spec: the gateway `send(message)` primitive of spec
section 6 — hands one message to the transport (gateway.py is not under
src/). -/
def gw_send (g : Gateway) (msg : Json) : Gateway :=
  { g with outbox := g.outbox ++ [msg] }

/-- The wire shape of a channel subscribe message, as built in client.py. -/
def subscribeMsg (channel_id : String) : Json :=
  Json.dict [("type", Json.str "subscribe"), ("channel_id", Json.str channel_id)]

/-- The wire shape of a channel unsubscribe message, as built in client.py. -/
def unsubscribeMsg (channel_id : String) : Json :=
  Json.dict [("type", Json.str "unsubscribe"), ("channel_id", Json.str channel_id)]

/-- The wire shape of a space subscribe message, as built in client.py. -/
def subscribeSpaceMsg (space_id : String) : Json :=
  Json.dict [("type", Json.str "subscribe_space"), ("space_id", Json.str space_id)]

/-- The wire shape of a space unsubscribe message, as built in client.py. -/
def unsubscribeSpaceMsg (space_id : String) : Json :=
  Json.dict [("type", Json.str "unsubscribe_space"), ("space_id", Json.str space_id)]

/-- The wire shape of a typing message, as built in client.py. -/
def typingMsg (channel_id : String) : Json :=
  Json.dict [("type", Json.str "typing"), ("channel_id", Json.str channel_id)]

/-- `Client.subscribe_channel` from client.py: track, then send the
subscribe message. -/
def subscribe_channel (g : Gateway) (channel_id : String) : Gateway :=
  gw_send (track_channel g channel_id) (subscribeMsg channel_id)

/-- `Client.unsubscribe_channel` from client.py: untrack, then send the
unsubscribe message. -/
def unsubscribe_channel (g : Gateway) (channel_id : String) : Gateway :=
  gw_send (untrack_channel g channel_id) (unsubscribeMsg channel_id)

/-- `Client.subscribe_space` from client.py: track, then send the
space subscribe message. -/
def subscribe_space (g : Gateway) (space_id : String) : Gateway :=
  gw_send (track_space g space_id) (subscribeSpaceMsg space_id)

/-- `Client.unsubscribe_space` from client.py: untrack, then send the
space unsubscribe message. -/
def unsubscribe_space (g : Gateway) (space_id : String) : Gateway :=
  gw_send (untrack_space g space_id) (unsubscribeSpaceMsg space_id)

/-- `Client.send_typing` from client.py: send one typing message, with no
tracker mutation. -/
def send_typing (g : Gateway) (channel_id : String) : Gateway :=
  gw_send g (typingMsg channel_id)

/-! ## Reconnect replay (spec-modelled)

The reconnect logic lives in gateway.py, which is not among the provided
source files; the replay behaviour is modelled from spec sections 4.1
and 8. -/

/-- One observable output of the session around a reconnect: either a
message sent to the transport or an inbound envelope delivered to the
dispatcher. -/
inductive SessionOutput where
  | sent (msg : Json) : SessionOutput
  | delivered (event_type : String) : SessionOutput

/-- Modelled from the spec: the Subscription Set snapshot replayed as
subscribe messages on re-entering Connected, channel set first, then
space set (gateway.py is not under src/). -/
def replayMessages (g : Gateway) : List Json :=
  g.channels.map subscribeMsg ++ g.spaces.map subscribeSpaceMsg

/-- Modelled from the spec: the output trace of the session from the
moment it re-enters Connected after a reconnect — the full replay of the
snapshot precedes delivery of any further inbound event to the dispatcher
(gateway.py is not under src/). -/
def reconnectTrace (g : Gateway) (inbound : List String) : List SessionOutput :=
  (replayMessages g).map SessionOutput.sent ++ inbound.map SessionOutput.delivered

/-! ## Helper predicates on dispatch actions -/

/-- Whether an action is a handler or listener invocation. -/
def Action.isInvocation : Action → Bool
  | Action.invokePrimary _ _ _ _ => true
  | Action.invokeListener _ _ _ _ => true
  | _ => false

/-- Whether an action is a listener invocation. -/
def Action.isListenerInvocation : Action → Bool
  | Action.invokeListener _ _ _ _ => true
  | _ => false

/-- Whether an action is a payload-parsing step. -/
def Action.isParse : Action → Bool
  | Action.parsePayload _ => true
  | _ => false

/-- The client `user_id` an invocation action observed, if any. -/
def Action.observed : Action → Option Json
  | Action.invokePrimary _ _ uid _ => some uid
  | Action.invokeListener _ _ uid _ => some uid
  | _ => none

/-- The invocation produced by the primary-handler step, stripped of the
error-logging actions. -/
def primaryInvocationOf (parsed uid : Json) : Option Handler → List Action
  | none => []
  | some h => [Action.invokePrimary h.hid parsed uid (h.raises parsed)]

/-! ## Theorems -/

/-- C2: an inbound envelope whose raw event-kind string is not a key of
the canonical event mapping causes no primary handler invocation, no
listener invocation and no payload parsing; dispatch returns normally
having only logged at debug level, with the client state unchanged. -/
theorem dispatch_unknown_kind (EM : String → Option String)
    (pe : String → List (String × Json) → Json) (st : ClientState)
    (event_type : String) (data : List (String × Json))
    (h : EM event_type = none) :
    dispatch EM pe st event_type data
        = (st, [Action.logDebugUnhandled event_type]) ∧
    (dispatch EM pe st event_type data).2.filter Action.isInvocation = [] ∧
    (dispatch EM pe st event_type data).2.filter Action.isParse = [] := by
  refine ⟨?_, ?_, ?_⟩ <;> simp [dispatch, h, Action.isInvocation, Action.isParse]

/-- Witness for C2 at the raw kind from spec section 8, with an empty
canonical mapping. -/
theorem dispatch_unknown_kind_witness :
    dispatch (fun _ => none) (fun _ _ => Json.null)
        ⟨Json.null, [], []⟩ "some_future_event" []
      = (⟨Json.null, [], []⟩,
         [Action.logDebugUnhandled "some_future_event"]) :=
  (dispatch_unknown_kind (fun _ => none) (fun _ _ => Json.null)
    ⟨Json.null, [], []⟩ "some_future_event" [] rfl).1

/-- C6: each facade subscription operation performs exactly its paired
tracker mutation and sends exactly one wire message of the documented
shape, and `send_typing` sends exactly the typing message with no tracker
mutation. -/
theorem facade_wire_spec (g : Gateway) (id : String) :
    ((subscribe_channel g id).channels = (track_channel g id).channels ∧
     (subscribe_channel g id).spaces = g.spaces ∧
     (subscribe_channel g id).outbox = g.outbox ++ [subscribeMsg id]) ∧
    ((unsubscribe_channel g id).channels = (untrack_channel g id).channels ∧
     (unsubscribe_channel g id).spaces = g.spaces ∧
     (unsubscribe_channel g id).outbox = g.outbox ++ [unsubscribeMsg id]) ∧
    ((subscribe_space g id).channels = g.channels ∧
     (subscribe_space g id).spaces = (track_space g id).spaces ∧
     (subscribe_space g id).outbox = g.outbox ++ [subscribeSpaceMsg id]) ∧
    ((unsubscribe_space g id).channels = g.channels ∧
     (unsubscribe_space g id).spaces = (untrack_space g id).spaces ∧
     (unsubscribe_space g id).outbox = g.outbox ++ [unsubscribeSpaceMsg id]) ∧
    ((send_typing g id).channels = g.channels ∧
     (send_typing g id).spaces = g.spaces ∧
     (send_typing g id).outbox = g.outbox ++ [typingMsg id]) := by
  refine ⟨⟨?_, ?_, ?_⟩, ⟨?_, ?_, ?_⟩, ⟨?_, ?_, ?_⟩, ⟨?_, ?_, ?_⟩, ?_, ?_, ?_⟩ <;>
    simp [subscribe_channel, unsubscribe_channel, subscribe_space,
      unsubscribe_space, send_typing, gw_send, track_channel, untrack_channel,
      track_space, untrack_space] <;>
    split <;> rfl

/-- C7: `HTTPClient.request` maps response statuses to outcomes: NotFound
exactly for 404, Forbidden exactly for 403, the generic HTTPException for
every other status of 400 or above, each carrying the status and the
(dict-normalised) response body; an empty dict for 204; the parsed body
for every other status below 400; and exactly one response is consumed
from the transport, never a second. -/
theorem request_spec (strOf : Json → String) (resp : Response) :
    (resp.status = 404 →
      request strOf resp
        = Except.error (HTTPError.notFound resp.status
            (normalizeBody strOf resp.body))) ∧
    (resp.status = 403 →
      request strOf resp
        = Except.error (HTTPError.forbidden resp.status
            (normalizeBody strOf resp.body))) ∧
    (400 ≤ resp.status → resp.status ≠ 404 → resp.status ≠ 403 →
      request strOf resp
        = Except.error (HTTPError.httpException resp.status
            (normalizeBody strOf resp.body))) ∧
    (resp.status = 204 → request strOf resp = Except.ok (Json.dict [])) ∧
    (resp.status < 400 → resp.status ≠ 204 →
      request strOf resp = Except.ok resp.body) ∧
    (∀ s b, request strOf resp = Except.error (HTTPError.notFound s b) →
      resp.status = 404 ∧ s = resp.status) ∧
    (∀ s b, request strOf resp = Except.error (HTTPError.forbidden s b) →
      resp.status = 403 ∧ s = resp.status) ∧
    (∀ s b, request strOf resp = Except.error (HTTPError.httpException s b) →
      (400 ≤ resp.status ∧ resp.status ≠ 404 ∧ resp.status ≠ 403)
        ∧ s = resp.status) ∧
    (∀ r rest, requestOnQueue strOf (r :: rest)
        = some (request strOf r, rest)) := by
  refine ⟨?_, ?_, ?_, ?_, ?_, ?_, ?_, ?_, fun r rest => rfl⟩
  · intro h404
    unfold request
    rw [if_neg (by omega), if_pos (by omega), if_pos h404]
  · intro h403
    unfold request
    rw [if_neg (by omega), if_pos (by omega), if_neg (by omega), if_pos h403]
  · intro h400 h404 h403
    unfold request
    rw [if_neg (by omega), if_pos (by omega), if_neg h404, if_neg h403]
  · intro h204
    unfold request
    rw [if_pos h204]
  · intro hlt h204
    unfold request
    rw [if_neg h204, if_neg (by omega)]
  · intro s b h
    unfold request at h
    split_ifs at h with h1 h2 h3 h4 <;> simp_all
  · intro s b h
    unfold request at h
    split_ifs at h with h1 h2 h3 h4 <;> simp_all
  · intro s b h
    unfold request at h
    split_ifs at h with h1 h2 h3 h4 <;> simp_all

/-- Witness for C7: a 404 response is surfaced as NotFound carrying the
status and body. -/
theorem request_spec_witness :
    request (fun _ => "") ⟨404, Json.null⟩
      = Except.error (HTTPError.notFound 404
          (normalizeBody (fun _ => "") Json.null)) :=
  (request_spec (fun _ => "") ⟨404, Json.null⟩).1 rfl

/-- C9 (spec-modelled, gateway.py not under src/): after a reconnect the
session replays the subscription snapshot — all tracked channel
subscribes, then all tracked space subscribes — before delivering any
inbound event to the dispatcher; for channels A, B and space S the
replay is exactly subscribe(A), subscribe(B), subscribe_space(S). -/
theorem reconnect_replay_spec (g : Gateway) (inbound : List String) :
    (reconnectTrace g inbound
      = g.channels.map (fun c => SessionOutput.sent (subscribeMsg c)) ++
        g.spaces.map (fun s => SessionOutput.sent (subscribeSpaceMsg s)) ++
        inbound.map SessionOutput.delivered) ∧
    (reconnectTrace ⟨["A", "B"], ["S"], []⟩ inbound
      = SessionOutput.sent (subscribeMsg "A") ::
        SessionOutput.sent (subscribeMsg "B") ::
        SessionOutput.sent (subscribeSpaceMsg "S") ::
        inbound.map SessionOutput.delivered) := by
  constructor
  · simp only [reconnectTrace, replayMessages, List.map_append,
      List.append_assoc, List.map_map]
    rfl
  · simp [reconnectTrace, replayMessages]

/-- Recogniser for a typing signal sent at time `t`. -/
def isSendAt (t : Nat) : TypingEvent → Bool
  | TypingEvent.sendTyping u => u = t
  | _ => false

/-- Characterisation of the signals the typing loop emits. -/
theorem mem_typingLoopSends (T t : Nat) :
    TypingEvent.sendTyping t ∈ typingLoopSends T ↔
      (t < T ∧ t % TYPING_INTERVAL = 0 ∧ t ≠ 0) := by
  simp only [typingLoopSends, List.mem_filterMap, List.mem_range]
  constructor
  · rintro ⟨u, hu, hx⟩
    by_cases hc : u % TYPING_INTERVAL = 0 ∧ u ≠ 0
    · rw [if_pos hc] at hx
      cases hx
      exact ⟨hu, hc.1, hc.2⟩
    · rw [if_neg hc] at hx
      cases hx
  · rintro ⟨h1, h2, h3⟩
    exact ⟨t, h1, by rw [if_pos ⟨h2, h3⟩]⟩

/-- The typing loop emits only send events. -/
theorem typingLoopSends_sendOnly (T : Nat) :
    ∀ e ∈ typingLoopSends T, ∃ t, e = TypingEvent.sendTyping t := by
  intro e he
  simp only [typingLoopSends, List.mem_filterMap, List.mem_range] at he
  obtain ⟨u, _, hx⟩ := he
  by_cases hc : u % TYPING_INTERVAL = 0 ∧ u ≠ 0
  · rw [if_pos hc] at hx
    cases hx
    exact ⟨u, rfl⟩
  · rw [if_neg hc] at hx
    cases hx

/-- C5: a typing scope sends exactly one signal at time 0 before the body
starts; while the scope is open a signal is re-sent at every positive
multiple of the 4-second interval; every signal of the scope is the
initial one or strictly precedes the exit time, at a multiple of the
interval; and the run ends — for a normal and for a raising body alike —
with the body finishing, the task being cancelled, the task stopping, and
only then the scope returning, with no signal after. -/
theorem typingRun_spec (T : Nat) (raised : Bool) :
    (∃ rest, typingRun T raised
        = TypingEvent.sendTyping 0 :: TypingEvent.bodyStart 0 :: rest) ∧
    ((typingRun T raised).countP (isSendAt 0) = 1) ∧
    (∀ t, 0 < t → t < T → t % TYPING_INTERVAL = 0 →
      TypingEvent.sendTyping t ∈ typingRun T raised) ∧
    (∀ t, TypingEvent.sendTyping t ∈ typingRun T raised →
      t = 0 ∨ (t < T ∧ t % TYPING_INTERVAL = 0)) ∧
    (∃ pre, typingRun T raised
        = pre ++ [TypingEvent.bodyEnd T raised, TypingEvent.cancelTask T,
                  TypingEvent.taskStopped T, TypingEvent.scopeExit T]) := by
  refine ⟨⟨_, rfl⟩, ?_, ?_, ?_,
    ⟨TypingEvent.sendTyping 0 :: TypingEvent.bodyStart 0 :: typingLoopSends T,
      by simp [typingRun]⟩⟩
  · have hzero : (typingLoopSends T).countP (isSendAt 0) = 0 := by
      refine List.countP_eq_zero.mpr ?_
      intro e he
      rcases typingLoopSends_sendOnly T e he with ⟨t, rfl⟩
      have hmem := (mem_typingLoopSends T t).mp he
      simp only [isSendAt, decide_eq_true_eq]
      exact hmem.2.2
    simp [typingRun, List.countP_cons, List.countP_append, hzero, isSendAt]
  · intro t ht0 htT hmod
    have hloop : TypingEvent.sendTyping t ∈ typingLoopSends T :=
      (mem_typingLoopSends T t).mpr ⟨htT, hmod, by omega⟩
    simp [typingRun, List.mem_append, hloop]
  · intro t ht
    simp only [typingRun, List.mem_cons, List.mem_append, mem_typingLoopSends,
      List.not_mem_nil, or_false, or_assoc] at ht
    rcases ht with h | h | h | h | h | h | h
    · injection h with h0
      exact Or.inl h0
    · cases h
    · exact Or.inr ⟨h.1, h.2.1⟩
    · cases h
    · cases h
    · cases h
    · cases h

/-- Witness for C5 at a scope of 9 seconds whose body raises: the signal
at time 4 is re-sent while the scope is open. -/
theorem typingRun_spec_witness :
    TypingEvent.sendTyping 4 ∈ typingRun 9 true :=
  (typingRun_spec 9 true).2.2.1 4 (by decide) (by decide) (by decide)

/-! ## Dispatch helper lemmas -/

/-- The `user_id` the client exposes from the moment `_dispatch` has
performed its ready-event special handling. -/
def newUserId (st : ClientState) (mapped : String)
    (data : List (String × Json)) : Json :=
  if mapped = "ready" then (lookupField data "user_id").getD Json.null
  else st.user_id

/-- The state after dispatching a known kind: only `user_id` can change,
and only for the ready event. -/
theorem dispatch_state_eq (EM : String → Option String)
    (pe : String → List (String × Json) → Json) (st : ClientState)
    (event_type : String) (data : List (String × Json)) (mapped : String)
    (hmap : EM event_type = some mapped) :
    (dispatch EM pe st event_type data).1
      = { st with user_id := newUserId st mapped data } := by
  unfold dispatch
  rw [hmap]
  by_cases hready : mapped = "ready" <;> simp [newUserId, hready]

/-- The action trace of dispatching a known kind, decomposed into the
ready step, the parse step, the primary-handler step and the listener
loop. -/
theorem dispatch_trace_eq (EM : String → Option String)
    (pe : String → List (String × Json) → Json) (st : ClientState)
    (event_type : String) (data : List (String × Json)) (mapped : String)
    (hmap : EM event_type = some mapped) :
    (dispatch EM pe st event_type data).2
      = (if mapped = "ready"
          then [Action.setUserId (newUserId st mapped data)] else []) ++
        Action.parsePayload event_type ::
          (primaryActions ("on_" ++ mapped) (pe event_type data)
              (newUserId st mapped data)
              (lookupAssoc st.event_handlers ("on_" ++ mapped)) ++
            ((lookupAssoc st.listeners ("on_" ++ mapped)).getD []).flatMap
              (listenerActions ("on_" ++ mapped) (pe event_type data)
                (newUserId st mapped data))) := by
  unfold dispatch
  rw [hmap]
  by_cases hready : mapped = "ready" <;> simp [newUserId, hready]

/-- Filtering the primary-handler step for invocations drops the error
log and keeps the one invocation, if a handler was registered. -/
theorem filter_primaryActions (hn : String) (parsed uid : Json)
    (oh : Option Handler) :
    (primaryActions hn parsed uid oh).filter Action.isInvocation
      = primaryInvocationOf parsed uid oh := by
  cases oh with
  | none => rfl
  | some h =>
      by_cases hr : h.raises parsed <;>
        simp [primaryActions, primaryInvocationOf, hr, Action.isInvocation]

/-- The primary-handler step contains no listener invocation. -/
theorem filterListener_primaryActions (hn : String) (parsed uid : Json)
    (oh : Option Handler) :
    (primaryActions hn parsed uid oh).filter Action.isListenerInvocation
      = [] := by
  cases oh with
  | none => rfl
  | some h =>
      by_cases hr : h.raises parsed <;>
        simp [primaryActions, hr, Action.isListenerInvocation]

/-- Filtering the listener loop for invocations yields one invocation per
registered listener, in list order, error logs dropped. -/
theorem filterInv_listenerFlat (hn : String) (parsed uid : Json)
    (ls : List Handler) :
    ((ls.flatMap (listenerActions hn parsed uid)).filter Action.isInvocation)
      = ls.map (fun l =>
          Action.invokeListener l.hid parsed uid (l.raises parsed)) := by
  induction ls with
  | nil => rfl
  | cons l rest ih =>
      by_cases hr : l.raises parsed <;>
        simp [List.flatMap_cons, List.filter_append, listenerActions, hr,
          Action.isInvocation, ih]

/-- As `filterInv_listenerFlat`, for the listener-invocation filter. -/
theorem filterLis_listenerFlat (hn : String) (parsed uid : Json)
    (ls : List Handler) :
    ((ls.flatMap (listenerActions hn parsed uid)).filter
        Action.isListenerInvocation)
      = ls.map (fun l =>
          Action.invokeListener l.hid parsed uid (l.raises parsed)) := by
  induction ls with
  | nil => rfl
  | cons l rest ih =>
      by_cases hr : l.raises parsed <;>
        simp [List.flatMap_cons, List.filter_append, listenerActions, hr,
          Action.isListenerInvocation, ih]

/-- Every invocation in the primary-handler step observes the `user_id`
current at dispatch time. -/
theorem observed_primaryActions (hn : String) (parsed uid : Json)
    (oh : Option Handler) :
    ∀ a ∈ primaryActions hn parsed uid oh, ∀ u,
      a.observed = some u → u = uid := by
  intro a ha u hu
  cases oh with
  | none => cases ha
  | some h =>
      by_cases hr : h.raises parsed <;> simp [primaryActions, hr] at ha
      · rcases ha with rfl | rfl
        · simpa [Action.observed] using hu.symm
        · simp [Action.observed] at hu
      · subst ha
        simpa [Action.observed] using hu.symm

/-- Every invocation in the listener loop observes the `user_id` current
at dispatch time. -/
theorem observed_listenerFlat (hn : String) (parsed uid : Json)
    (ls : List Handler) :
    ∀ a ∈ ls.flatMap (listenerActions hn parsed uid), ∀ u,
      a.observed = some u → u = uid := by
  intro a ha u hu
  simp only [List.mem_flatMap] at ha
  obtain ⟨l, _, hl⟩ := ha
  by_cases hr : l.raises parsed <;> simp [listenerActions, hr] at hl
  · rcases hl with rfl | rfl
    · simpa [Action.observed] using hu.symm
    · simp [Action.observed] at hu
  · subst hl
    simpa [Action.observed] using hu.symm

/-! ## Association-list update lemmas (Python dict assignment) -/

/-- After `d[k] = v`, looking up `k` finds `v`. -/
theorem lookupAssoc_updateAssoc_self {α : Type} (l : List (String × α))
    (k : String) (v : α) :
    lookupAssoc (updateAssoc l k v) k = some v := by
  induction l with
  | nil => simp [updateAssoc, lookupAssoc]
  | cons p rest ih =>
      obtain ⟨k', v'⟩ := p
      by_cases hk : k' = k
      · simp [updateAssoc, hk, lookupAssoc]
      · simp [updateAssoc, hk, lookupAssoc, ih]

/-- After `d[k] = v`, every other key is unaffected. -/
theorem lookupAssoc_updateAssoc_ne {α : Type} (l : List (String × α))
    (k : String) (v : α) (k2 : String) (hne : k2 ≠ k) :
    lookupAssoc (updateAssoc l k v) k2 = lookupAssoc l k2 := by
  have hne2 : ¬ (k = k2) := fun hh => hne hh.symm
  induction l with
  | nil => simp [updateAssoc, lookupAssoc, hne2]
  | cons p rest ih =>
      obtain ⟨k', v'⟩ := p
      by_cases hk : k' = k
      · subst hk
        simp [updateAssoc, lookupAssoc, hne2]
      · simp only [updateAssoc, hk, if_false, lookupAssoc]
        by_cases hk2 : k' = k2 <;> simp [hk2, ih]

/-- The keys present after `d[k] = v`. -/
theorem mem_updateAssoc_keys {α : Type} (l : List (String × α))
    (k : String) (v : α) (x : String) :
    x ∈ (updateAssoc l k v).map Prod.fst ↔
      (x ∈ l.map Prod.fst ∨ x = k) := by
  induction l with
  | nil => simp [updateAssoc]
  | cons p rest ih =>
      obtain ⟨k', v'⟩ := p
      by_cases hk : k' = k
      · subst hk
        simp [updateAssoc]
        tauto
      · simp [updateAssoc, hk, ih]
        tauto

/-- `d[k] = v` keeps dict keys unique. -/
theorem updateAssoc_keys_nodup {α : Type} (l : List (String × α))
    (k : String) (v : α) (hl : (l.map Prod.fst).Nodup) :
    ((updateAssoc l k v).map Prod.fst).Nodup := by
  induction l with
  | nil => simp [updateAssoc]
  | cons p rest ih =>
      obtain ⟨k', v'⟩ := p
      simp only [List.map_cons, List.nodup_cons] at hl
      by_cases hk : k' = k
      · subst hk
        simpa [updateAssoc] using hl
      · have := ih hl.2
        simp only [updateAssoc, hk, if_false, List.map_cons, List.nodup_cons]
        refine ⟨?_, this⟩
        rw [mem_updateAssoc_keys]
        rintro (hmem | rfl)
        · exact hl.1 hmem
        · exact hk rfl

/-! ## Dispatch theorems -/

/-- C3: for a known canonical event name, the invocation trace of one
dispatch cycle is exactly the primary handler invocation (if one is
registered) followed by one invocation per registered listener, in
registration-list order, all applied to the same parsed payload. -/
theorem dispatch_invocation_order (EM : String → Option String)
    (pe : String → List (String × Json) → Json) (st : ClientState)
    (event_type : String) (data : List (String × Json)) (mapped : String)
    (hmap : EM event_type = some mapped) :
    (dispatch EM pe st event_type data).2.filter Action.isInvocation
      = primaryInvocationOf (pe event_type data)
          (dispatch EM pe st event_type data).1.user_id
          (lookupAssoc st.event_handlers ("on_" ++ mapped)) ++
        ((lookupAssoc st.listeners ("on_" ++ mapped)).getD []).map
          (fun l => Action.invokeListener l.hid (pe event_type data)
            (dispatch EM pe st event_type data).1.user_id
            (l.raises (pe event_type data))) := by
  rw [dispatch_trace_eq EM pe st event_type data mapped hmap,
    dispatch_state_eq EM pe st event_type data mapped hmap]
  by_cases hready : mapped = "ready" <;>
    simp [hready, List.filter_append, Action.isInvocation,
      filter_primaryActions, filterInv_listenerFlat]

/-- C1: when the registered primary handler raises on the dispatched
envelope, the exception is caught and logged inside dispatch (which
returns its trace normally instead of propagating), and the listener
trace is unaffected: every registered listener is still invoked, in
order, each inside its own try/except, so listeners that raise do not
prevent the remaining ones from being invoked. -/
theorem dispatch_isolates_failures (EM : String → Option String)
    (pe : String → List (String × Json) → Json) (st : ClientState)
    (event_type : String) (data : List (String × Json)) (mapped : String)
    (h : Handler) (hmap : EM event_type = some mapped)
    (hhandler : lookupAssoc st.event_handlers ("on_" ++ mapped) = some h)
    (hraises : h.raises (pe event_type data) = true) :
    Action.logHandlerError ("on_" ++ mapped)
        ∈ (dispatch EM pe st event_type data).2 ∧
    (dispatch EM pe st event_type data).2.filter Action.isListenerInvocation
      = ((lookupAssoc st.listeners ("on_" ++ mapped)).getD []).map
          (fun l => Action.invokeListener l.hid (pe event_type data)
            (dispatch EM pe st event_type data).1.user_id
            (l.raises (pe event_type data))) ∧
    (dispatch EM pe st event_type data).2.filter Action.isInvocation
      = Action.invokePrimary h.hid (pe event_type data)
          (dispatch EM pe st event_type data).1.user_id true ::
        ((lookupAssoc st.listeners ("on_" ++ mapped)).getD []).map
          (fun l => Action.invokeListener l.hid (pe event_type data)
            (dispatch EM pe st event_type data).1.user_id
            (l.raises (pe event_type data))) := by
  rw [dispatch_trace_eq EM pe st event_type data mapped hmap,
    dispatch_state_eq EM pe st event_type data mapped hmap]
  refine ⟨?_, ?_, ?_⟩
  · simp [List.mem_append, primaryActions, hhandler, hraises]
  · by_cases hready : mapped = "ready" <;>
      simp [hready, List.filter_append, Action.isListenerInvocation,
        filterListener_primaryActions, filterLis_listenerFlat]
  · by_cases hready : mapped = "ready"
    · subst hready
      have hh2 : lookupAssoc st.event_handlers "on_ready" = some h := hhandler
      simp [List.filter_append, Action.isInvocation, filter_primaryActions,
        filterInv_listenerFlat, primaryInvocationOf, hh2, hraises]
    · simp [hready, List.filter_append, Action.isInvocation,
        filter_primaryActions, filterInv_listenerFlat, primaryInvocationOf,
        hhandler, hraises]

/-- C4: dispatching an envelope whose canonical name is the ready event
records `data.get("user_id")` as the client `user_id`, logs that update
as the very first action of the cycle, and every handler and listener
invocation of the cycle already observes the updated identifier. -/
theorem dispatch_ready_user_id (EM : String → Option String)
    (pe : String → List (String × Json) → Json) (st : ClientState)
    (event_type : String) (data : List (String × Json))
    (hmap : EM event_type = some "ready") :
    (dispatch EM pe st event_type data).1.user_id
        = (lookupField data "user_id").getD Json.null ∧
    (dispatch EM pe st event_type data).2.head?
        = some (Action.setUserId ((lookupField data "user_id").getD Json.null)) ∧
    (∀ a ∈ (dispatch EM pe st event_type data).2, ∀ u,
      a.observed = some u → u = (lookupField data "user_id").getD Json.null) := by
  have hs := dispatch_state_eq EM pe st event_type data "ready" hmap
  have ht := dispatch_trace_eq EM pe st event_type data "ready" hmap
  refine ⟨by rw [hs]; simp [newUserId], by rw [ht]; simp [newUserId], ?_⟩
  intro a ha u hu
  rw [ht] at ha
  simp only [reduceIte, List.mem_append, List.mem_cons, List.not_mem_nil,
    or_false] at ha
  rcases ha with rfl | rfl | ha | ha
  · simp [Action.observed] at hu
  · simp [Action.observed] at hu
  · have := observed_primaryActions ("on_" ++ "ready") (pe event_type data)
      (newUserId st "ready" data)
      (lookupAssoc st.event_handlers ("on_" ++ "ready")) a ha u hu
    simpa [newUserId] using this
  · have := observed_listenerFlat ("on_" ++ "ready") (pe event_type data)
      (newUserId st "ready" data) _ a ha u hu
    simpa [newUserId] using this

/-- C10: registering through the `Client.event` decorator raises
ValueError exactly when the function name does not start with `on_`;
otherwise the function becomes the unique primary handler stored under
that name (replacing any earlier one, other names untouched, key
uniqueness preserved) and the decorator hands the same function back. -/
theorem event_registration_spec (st : ClientState) (name : String)
    (h : Handler) :
    (¬ pyStartsWith "on_" name →
      Client.event st name h = Except.error PyErr.valueError) ∧
    (pyStartsWith "on_" name →
      ∃ st', Client.event st name h = Except.ok (st', h) ∧
        lookupAssoc st'.event_handlers name = some h ∧
        (∀ k, k ≠ name →
          lookupAssoc st'.event_handlers k
            = lookupAssoc st.event_handlers k) ∧
        st'.listeners = st.listeners ∧ st'.user_id = st.user_id ∧
        ((st.event_handlers.map Prod.fst).Nodup →
          (st'.event_handlers.map Prod.fst).Nodup)) := by
  constructor
  · intro hno
    simp [Client.event, hno]
  · intro hyes
    refine ⟨{ st with event_handlers := updateAssoc st.event_handlers name h },
      ?_, ?_, ?_, rfl, rfl, ?_⟩
    · simp [Client.event, hyes]
    · exact lookupAssoc_updateAssoc_self st.event_handlers name h
    · intro k hk
      exact lookupAssoc_updateAssoc_ne st.event_handlers name h k hk
    · exact updateAssoc_keys_nodup st.event_handlers name h

/-- Witness for C3: a raising primary handler and two listeners on the
message event produce exactly the primary invocation followed by the two
listener invocations in registration order, on the same payload. -/
theorem dispatch_invocation_order_witness :
    (dispatch (fun s => if s = "message_create" then some "message" else none)
        (fun _ _ => Json.str "p")
        ⟨Json.null, [("on_message", ⟨1, fun _ => true⟩)],
          [("on_message", [⟨2, fun _ => false⟩, ⟨3, fun _ => true⟩])]⟩
        "message_create" []).2.filter Action.isInvocation
      = [Action.invokePrimary 1 (Json.str "p") Json.null true,
         Action.invokeListener 2 (Json.str "p") Json.null false,
         Action.invokeListener 3 (Json.str "p") Json.null true] :=
  (dispatch_invocation_order
    (fun s => if s = "message_create" then some "message" else none)
    (fun _ _ => Json.str "p")
    ⟨Json.null, [("on_message", ⟨1, fun _ => true⟩)],
      [("on_message", [⟨2, fun _ => false⟩, ⟨3, fun _ => true⟩])]⟩
    "message_create" [] "message" rfl).trans (by rfl)

/-- Witness for C1: even though the primary handler for the message event
always raises and the second listener raises too, both listeners are
invoked and the handler failure is logged. -/
theorem dispatch_isolates_failures_witness :
    Action.logHandlerError "on_message"
        ∈ (dispatch
            (fun s => if s = "message_create" then some "message" else none)
            (fun _ _ => Json.str "p")
            ⟨Json.null, [("on_message", ⟨1, fun _ => true⟩)],
              [("on_message", [⟨2, fun _ => true⟩, ⟨3, fun _ => false⟩])]⟩
            "message_create" []).2 ∧
    (dispatch (fun s => if s = "message_create" then some "message" else none)
        (fun _ _ => Json.str "p")
        ⟨Json.null, [("on_message", ⟨1, fun _ => true⟩)],
          [("on_message", [⟨2, fun _ => true⟩, ⟨3, fun _ => false⟩])]⟩
        "message_create" []).2.filter Action.isListenerInvocation
      = [Action.invokeListener 2 (Json.str "p") Json.null true,
         Action.invokeListener 3 (Json.str "p") Json.null false] ∧
    (dispatch (fun s => if s = "message_create" then some "message" else none)
        (fun _ _ => Json.str "p")
        ⟨Json.null, [("on_message", ⟨1, fun _ => true⟩)],
          [("on_message", [⟨2, fun _ => true⟩, ⟨3, fun _ => false⟩])]⟩
        "message_create" []).2.filter Action.isInvocation
      = [Action.invokePrimary 1 (Json.str "p") Json.null true,
         Action.invokeListener 2 (Json.str "p") Json.null true,
         Action.invokeListener 3 (Json.str "p") Json.null false] :=
  dispatch_isolates_failures
    (fun s => if s = "message_create" then some "message" else none)
    (fun _ _ => Json.str "p")
    ⟨Json.null, [("on_message", ⟨1, fun _ => true⟩)],
      [("on_message", [⟨2, fun _ => true⟩, ⟨3, fun _ => false⟩])]⟩
    "message_create" [] "message" ⟨1, fun _ => true⟩ rfl rfl rfl

/-- Witness for C4: dispatching a ready envelope stores the payload
user identifier on the client before any callback runs. -/
theorem dispatch_ready_user_id_witness :
    (dispatch (fun _ => some "ready") (fun _ _ => Json.null)
        ⟨Json.null, [], []⟩ "ready"
        [("user_id", Json.str "u7")]).1.user_id = Json.str "u7" :=
  (dispatch_ready_user_id (fun _ => some "ready") (fun _ _ => Json.null)
    ⟨Json.null, [], []⟩ "ready" [("user_id", Json.str "u7")] rfl).1

/-- Witness for C10: a handler function whose name lacks the `on_`
prefix is rejected with ValueError. -/
theorem event_registration_spec_witness :
    Client.event ⟨Json.null, [], []⟩ "oops" ⟨1, fun _ => false⟩
      = Except.error PyErr.valueError :=
  (event_registration_spec ⟨Json.null, [], []⟩ "oops"
    ⟨1, fun _ => false⟩).1 (by decide)

/-! ## Parser lemmas (models.py from_dict constructors) -/

/-- Bind on a successful `Except` step. -/
theorem exceptOk_bind {α β : Type} (a : α) (f : α → Except PyErr β) :
    (Except.ok a : Except PyErr α) >>= f = f a := rfl

/-- `dictGetD` on a dict never fails and applies the default. -/
theorem dictGetD_dict (fields : List (String × Json)) (k : String)
    (dflt : Json) :
    dictGetD (Json.dict fields) k dflt
      = Except.ok ((lookupField fields k).getD dflt) := rfl

/-- `subscript` on a dict succeeds exactly on present keys. -/
theorem subscript_dict_present (fields : List (String × Json)) (k : String)
    (v : Json) (h : lookupField fields k = some v) :
    subscript (Json.dict fields) k = Except.ok v := by
  simp [subscript, h]

/-- Acceptable raw values for a `_parse_dt` field: absent, falsy, or a
string the external `datetime.fromisoformat` accepts. -/
def dtOk (iso : String → Option String) : Option Json → Prop
  | none => True
  | some j => falsy j = true ∨ ∃ s, j = Json.str s ∧ (iso (replaceZ s)).isSome

/-- Acceptable raw values for an iterated sub-object field: absent, or a
list of dicts whose entries satisfy `p`. -/
def dictListOk (p : List (String × Json) → Prop) : Option Json → Prop
  | none => True
  | some (Json.list items) => ∀ e ∈ items, ∃ f, e = Json.dict f ∧ p f
  | some _ => False

/-- `_parse_dt` succeeds on every acceptable raw value. -/
theorem parseDt_ok (iso : String → Option String) (o : Option Json)
    (h : dtOk iso o) :
    ∃ r, parseDt iso (o.getD Json.null) = Except.ok r := by
  cases o with
  | none => exact ⟨none, rfl⟩
  | some j =>
      simp only [dtOk] at h
      rcases h with hf | ⟨s, rfl, hiso⟩
      · exact ⟨none, by simp [parseDt, hf]⟩
      · by_cases hf : falsy (Json.str s) = true
        · exact ⟨none, by simp [parseDt, hf]⟩
        · obtain ⟨dt, hdt⟩ := Option.isSome_iff_exists.mp hiso
          refine ⟨some dt, ?_⟩
          simp [parseDt, hf, hdt]

/-- `User.from_dict` succeeds on every author dict that carries an id,
applying the documented default for each missing optional field. -/
theorem user_from_dict_ok (afields : List (String × Json)) (aid : Json)
    (h : lookupField afields "id" = some aid) :
    User.from_dict (Json.dict afields)
      = Except.ok ⟨aid,
          (lookupField afields "username").getD (Json.str ""),
          (lookupField afields "display_name").getD (Json.str ""),
          (lookupField afields "avatar_url").getD Json.null,
          (lookupField afields "presence").getD (Json.str "offline"),
          (lookupField afields "custom_status").getD Json.null,
          (lookupField afields "subscription_tier").getD (Json.str "free"),
          (lookupField afields "is_admin").getD (Json.bool false)⟩ := by
  rw [User.from_dict]
  simp only [subscript_dict_present afields "id" aid h, dictGetD_dict,
    exceptOk_bind]
  rfl

/-- `Embed.from_dict` succeeds on every dict. -/
theorem embed_from_dict_ok (f : List (String × Json)) :
    ∃ e, Embed.from_dict (Json.dict f) = Except.ok e :=
  ⟨_, rfl⟩

/-- Required fields of an attachment entry. -/
def attachmentFieldsOk (f : List (String × Json)) : Prop :=
  (∃ v, lookupField f "id" = some v) ∧
  (∃ v, lookupField f "filename" = some v) ∧
  (∃ v, lookupField f "url" = some v)

/-- Required fields of a reaction entry. -/
def reactionFieldsOk (f : List (String × Json)) : Prop :=
  (∃ v, lookupField f "emoji" = some v) ∧
  (∃ v, lookupField f "count" = some v)

/-- `Attachment.from_dict` succeeds whenever `id`, `filename` and `url`
are present, applying the documented default — including `filename` as
the fallback for `original_filename` — to the rest. -/
theorem attachment_from_dict_ok (f : List (String × Json)) (i fn u : Json)
    (hi : lookupField f "id" = some i)
    (hfn : lookupField f "filename" = some fn)
    (hu : lookupField f "url" = some u) :
    Attachment.from_dict (Json.dict f)
      = Except.ok ⟨i, fn,
          (lookupField f "original_filename").getD fn,
          (lookupField f "content_type").getD (Json.str ""),
          (lookupField f "size_bytes").getD (Json.num 0),
          u,
          (lookupField f "width").getD Json.null,
          (lookupField f "height").getD Json.null⟩ := by
  rw [Attachment.from_dict]
  simp only [subscript_dict_present f "id" i hi,
    subscript_dict_present f "filename" fn hfn,
    subscript_dict_present f "url" u hu, dictGetD_dict, exceptOk_bind]
  rfl

/-- `Reaction.from_dict` succeeds whenever `emoji` and `count` are
present, applying the documented default to `user_reacted`. -/
theorem reaction_from_dict_ok (f : List (String × Json)) (e c : Json)
    (he : lookupField f "emoji" = some e)
    (hc : lookupField f "count" = some c) :
    Reaction.from_dict (Json.dict f)
      = Except.ok ⟨e, c, (lookupField f "user_reacted").getD (Json.bool false)⟩ := by
  rw [Reaction.from_dict]
  simp only [subscript_dict_present f "emoji" e he,
    subscript_dict_present f "count" c hc, dictGetD_dict, exceptOk_bind]
  rfl

/-- `mapM` over `Except` succeeds when every element parses. -/
theorem mapM_ok_of_forall {α β : Type} (parse : α → Except PyErr β)
    (xs : List α) (h : ∀ x ∈ xs, ∃ y, parse x = Except.ok y) :
    ∃ ys, xs.mapM parse = Except.ok ys := by
  induction xs with
  | nil => exact ⟨[], rfl⟩
  | cons x rest ih =>
      obtain ⟨y, hy⟩ := h x (List.mem_cons_self x rest)
      obtain ⟨ys, hys⟩ := ih (fun z hz => h z (List.mem_cons_of_mem x hz))
      refine ⟨y :: ys, ?_⟩
      rw [List.mapM_cons, hy, exceptOk_bind, hys, exceptOk_bind]
      rfl

/-- The iterate-then-parse pipeline of `Message.from_dict` succeeds on
every acceptable raw value for a sub-object list field. -/
theorem iterMapM_ok {β : Type} (parse : Json → Except PyErr β)
    (p : List (String × Json) → Prop)
    (hparse : ∀ f, p f → ∃ y, parse (Json.dict f) = Except.ok y)
    (o : Option Json) (ho : dictListOk p o) :
    ∃ items ys, pyIter (o.getD (Json.list [])) = Except.ok items ∧
      items.mapM parse = Except.ok ys := by
  cases o with
  | none =>
      exact ⟨[], [], rfl, rfl⟩
  | some j =>
      cases j with
      | list items =>
          simp only [dictListOk] at ho
          obtain ⟨ys, hys⟩ := mapM_ok_of_forall parse items (fun e he => by
            obtain ⟨f, rfl, hf⟩ := ho e he
            exact hparse f hf)
          exact ⟨items, ys, rfl, hys⟩
      | null => simp [dictListOk] at ho
      | str s => simp [dictListOk] at ho
      | num n => simp [dictListOk] at ho
      | bool b => simp [dictListOk] at ho
      | dict f => simp [dictListOk] at ho

/-- Bind on a failed `Except` step propagates the error. -/
theorem exceptErr_bind {α β : Type} (e : PyErr) (f : α → Except PyErr β) :
    (Except.error e : Except PyErr α) >>= f = Except.error e := rfl

/-- `subscript` on a dict raises KeyError exactly on absent keys. -/
theorem subscript_dict_absent (fields : List (String × Json)) (k : String)
    (h : lookupField fields k = none) :
    subscript (Json.dict fields) k = Except.error (PyErr.keyError k) := by
  simp [subscript, h]

/-- `Message.from_dict` succeeds on every payload dict that carries its
own `id` and an author dict carrying an `id`, provided the optional
fields present are structurally well formed. -/
theorem message_from_dict_ok (iso : String → Option String)
    (fields afields : List (String × Json)) (i aid : Json)
    (sid : Option String)
    (hid : lookupField fields "id" = some i)
    (hauthor : lookupField fields "author" = some (Json.dict afields))
    (haid : lookupField afields "id" = some aid)
    (hcreated : dtOk iso (lookupField fields "created_at"))
    (hedited : dtOk iso (lookupField fields "edited_at"))
    (hembeds : dictListOk (fun _ => True) (lookupField fields "embeds"))
    (hatts : dictListOk attachmentFieldsOk (lookupField fields "attachments"))
    (hreacts : dictListOk reactionFieldsOk (lookupField fields "reactions")) :
    ∃ m, Message.from_dict iso (Json.dict fields) sid = Except.ok m := by
  obtain ⟨ca, hca⟩ := parseDt_ok iso (lookupField fields "created_at") hcreated
  obtain ⟨ea, hea⟩ := parseDt_ok iso (lookupField fields "edited_at") hedited
  obtain ⟨eitems, eys, heit, heys⟩ :=
    iterMapM_ok Embed.from_dict (fun _ => True)
      (fun f _ => embed_from_dict_ok f) (lookupField fields "embeds") hembeds
  obtain ⟨aitems, ays, hait, hays⟩ :=
    iterMapM_ok Attachment.from_dict attachmentFieldsOk
      (fun f hf => by
        obtain ⟨⟨i2, hi2⟩, ⟨fn2, hfn2⟩, ⟨u2, hu2⟩⟩ := hf
        exact ⟨_, attachment_from_dict_ok f i2 fn2 u2 hi2 hfn2 hu2⟩)
      (lookupField fields "attachments") hatts
  obtain ⟨ritems, rys, hrit, hrys⟩ :=
    iterMapM_ok Reaction.from_dict reactionFieldsOk
      (fun f hf => by
        obtain ⟨⟨e2, he2⟩, ⟨c2, hc2⟩⟩ := hf
        exact ⟨_, reaction_from_dict_ok f e2 c2 he2 hc2⟩)
      (lookupField fields "reactions") hreacts
  refine ⟨⟨i, (lookupField fields "channel_id").getD (Json.str ""),
    (lookupField fields "content").getD (Json.str ""),
    ⟨aid, (lookupField afields "username").getD (Json.str ""),
      (lookupField afields "display_name").getD (Json.str ""),
      (lookupField afields "avatar_url").getD Json.null,
      (lookupField afields "presence").getD (Json.str "offline"),
      (lookupField afields "custom_status").getD Json.null,
      (lookupField afields "subscription_tier").getD (Json.str "free"),
      (lookupField afields "is_admin").getD (Json.bool false)⟩,
    sid, ca, ea,
    (lookupField fields "reply_to").getD Json.null,
    (lookupField fields "ping_author").getD (Json.bool false),
    eys, ays, rys⟩, ?_⟩
  rw [Message.from_dict]
  simp only [dictGetD_dict, exceptOk_bind, hauthor, Option.getD_some,
    subscript_dict_present fields "id" i hid,
    user_from_dict_ok afields aid haid, hca, hea, heit, heys, hait, hays,
    hrit, hrys]
  rfl

/-- C8 counterexample: the payload `\x7b"id": "m1"\x7d` contains the
identifying field of a message, yet `Message.from_dict` raises KeyError,
because the default `\x7b\x7d` taken for the missing author lacks the
`id` that `User.from_dict` subscripts. -/
theorem message_missing_author_counterexample :
    Message.from_dict (fun _ => none) (Json.dict [("id", Json.str "m1")]) none
      = Except.error (PyErr.keyError "id") := by
  rfl

/-- C8 (amended): `Reaction.from_dict` and `Attachment.from_dict` apply
the documented default for each missing optional field and fail — with
KeyError — only when a required identifying field is absent, succeeding
on every dict containing their required fields; `Message.from_dict`
additionally requires the author dict and its `id`, and succeeds on
every dict whose required fields are present and whose optional fields,
when present, are structurally well formed. -/
theorem parsers_defaults_spec (iso : String → Option String) :
    (∀ f e c, lookupField f "emoji" = some e →
      lookupField f "count" = some c →
      Reaction.from_dict (Json.dict f)
        = Except.ok ⟨e, c,
            (lookupField f "user_reacted").getD (Json.bool false)⟩) ∧
    (∀ f, lookupField f "emoji" = none →
      Reaction.from_dict (Json.dict f)
        = Except.error (PyErr.keyError "emoji")) ∧
    (∀ f i fn u, lookupField f "id" = some i →
      lookupField f "filename" = some fn →
      lookupField f "url" = some u →
      Attachment.from_dict (Json.dict f)
        = Except.ok ⟨i, fn,
            (lookupField f "original_filename").getD fn,
            (lookupField f "content_type").getD (Json.str ""),
            (lookupField f "size_bytes").getD (Json.num 0),
            u,
            (lookupField f "width").getD Json.null,
            (lookupField f "height").getD Json.null⟩) ∧
    (∀ f, lookupField f "id" = none →
      Attachment.from_dict (Json.dict f)
        = Except.error (PyErr.keyError "id")) ∧
    (∀ fields afields i aid sid,
      lookupField fields "id" = some i →
      lookupField fields "author" = some (Json.dict afields) →
      lookupField afields "id" = some aid →
      dtOk iso (lookupField fields "created_at") →
      dtOk iso (lookupField fields "edited_at") →
      dictListOk (fun _ => True) (lookupField fields "embeds") →
      dictListOk attachmentFieldsOk (lookupField fields "attachments") →
      dictListOk reactionFieldsOk (lookupField fields "reactions") →
      ∃ m, Message.from_dict iso (Json.dict fields) sid = Except.ok m) := by
  refine ⟨?_, ?_, ?_, ?_, ?_⟩
  · intro f e c he hc
    exact reaction_from_dict_ok f e c he hc
  · intro f h
    rw [Reaction.from_dict, subscript_dict_absent f "emoji" h, exceptErr_bind]
  · intro f i fn u hi hfn hu
    exact attachment_from_dict_ok f i fn u hi hfn hu
  · intro f h
    rw [Attachment.from_dict, subscript_dict_absent f "id" h, exceptErr_bind]
  · intro fields afields i aid sid hid hauthor haid hcreated hedited hembeds
      hatts hreacts
    exact message_from_dict_ok iso fields afields i aid sid hid hauthor haid
      hcreated hedited hembeds hatts hreacts

/-- Witness for C8 at a concrete reaction payload: required fields
present, optional field defaulted. -/
theorem parsers_defaults_spec_witness :
    Reaction.from_dict
        (Json.dict [("emoji", Json.str "x"), ("count", Json.num 2)])
      = Except.ok ⟨Json.str "x", Json.num 2, Json.bool false⟩ :=
  (parsers_defaults_spec (fun _ => none)).1
    [("emoji", Json.str "x"), ("count", Json.num 2)]
    (Json.str "x") (Json.num 2) rfl rfl

end Scatter
